import Mathlib

/-!
# NPC lifecycle controller: shallow embedding and verified properties

The development embeds the three Go source files of the `npc` package
(`handler.go`, `npc.go`, `skin.go`).  Pointers to mutable objects become explicit
state that every operation returns; a Go `panic` becomes the `Outcome.panic`
result; values owned by the host runtime (worlds, transactions, players, the
chunk loader) are represented by the data the package can observe of them.  A
closure handed to a world (`w.Exec`, `npc.ExecWorld`) is recorded as a
transaction that the world runs on its own schedule: the caller does not wait.
-/

namespace npc

/-! ## Outcomes of fallible code -/

/-- Result of a Go function that may return a value, return an `error`, or panic. -/
inductive Outcome (α : Type) where
  | ok (v : α)
  | error (msg : String)
  | panic (msg : String)
deriving DecidableEq

/-- Sequencing of fallible steps: the first error or panic ends the computation. -/
def Outcome.bind {α β : Type} : Outcome α → (α → Outcome β) → Outcome β
  | .ok v, k => k v
  | .error e, _ => .error e
  | .panic e, _ => .panic e

/-- True exactly for the `error` result. -/
def Outcome.isError {α : Type} : Outcome α → Bool
  | .error _ => true
  | _ => false

/-- True exactly for the `panic` result. -/
def Outcome.isPanic {α : Type} : Outcome α → Bool
  | .panic _ => true
  | _ => false

/-- True exactly for the `ok` result. -/
def Outcome.isOk {α : Type} : Outcome α → Bool
  | .ok _ => true
  | _ => false

/-! ## Numbers -/

/-- Go `float64` as far as this package observes it: the package only compares
floats with zero, stores them and assigns the constants 0 and 1.0, so a value
is NaN, an infinity, or a finite number (negative zero compares equal to zero
and is identified with it). -/
inductive Float64 where
  | nan
  | posInf
  | negInf
  | fin (q : ℚ)
deriving DecidableEq

instance : OfNat Float64 n := ⟨Float64.fin n⟩

/-- Go `x <= y` on `float64`: false as soon as one side is NaN. -/
def Float64.le : Float64 → Float64 → Bool
  | .nan, _ => false
  | _, .nan => false
  | .negInf, _ => true
  | _, .posInf => true
  | .posInf, _ => false
  | _, .negInf => false
  | .fin a, .fin b => decide (a ≤ b)

/-- Go `x < y` on `float64`: false as soon as one side is NaN. -/
def Float64.lt : Float64 → Float64 → Bool
  | .nan, _ => false
  | _, .nan => false
  | .posInf, _ => false
  | _, .negInf => false
  | .negInf, _ => true
  | _, .posInf => true
  | .fin a, .fin b => decide (a < b)

/-- Smallest `int64`. -/
def minInt64 : Int := -(2 ^ 63)

/-- Largest `int64`. -/
def maxInt64 : Int := 2 ^ 63 - 1

/-- Two's-complement wrap of an integer into the `int64` range (Go `int` on 64-bit targets). -/
def wrap64 (x : Int) : Int := (x + 2 ^ 63) % 2 ^ 64 - 2 ^ 63

/-- Go conversion `int(f)` of a `float64`: truncation toward zero.  For a value
outside the `int64` range (and NaN, infinities) Go leaves the result to the
implementation; the amd64 result, the smallest `int64`, is used. -/
def Float64.toInt : Float64 → Int
  | .fin q =>
    let t := Int.tdiv q.num q.den
    if minInt64 ≤ t ∧ t ≤ maxInt64 then t else minInt64
  | _ => minInt64

/-- Go `time.Duration`: a count of nanoseconds. -/
abbrev Duration := Int

/-- Constant `time.Millisecond`. -/
def time.Millisecond : Duration := 1000000

/-- Vector `mgl64.Vec3`. -/
structure Vec3 where
  x : Float64
  y : Float64
  z : Float64
deriving DecidableEq

/-- Zero value `mgl64.Vec3{}`. -/
def Vec3.zero : Vec3 := ⟨0, 0, 0⟩

/-- Value `cube.Rotation` (yaw, pitch). -/
structure Rotation where
  yaw : Float64
  pitch : Float64
deriving DecidableEq

/-! ## Host runtime values -/

/-- A `*world.World` other than nil, identified by its address; nil is `none` of `Option World`. -/
structure World where
  id : Nat
deriving DecidableEq

/-- A `*world.Tx`: the package only asks it for its world (`tx.World()`). -/
structure Tx where
  world : Option World
deriving DecidableEq

/-- A `*player.Player`: an entity handle together with the transaction it lives in (`p.Tx()`). -/
structure Player where
  handle : Nat
  tx : Tx
deriving DecidableEq

/-- Dynamic type of a `world.Entity` interface value: a `*player.Player` or anything else. -/
inductive Entity where
  | player (p : Player)
  | other (id : Nat)
deriving DecidableEq

/-- Dynamic type of a `world.DamageSource` value: an `entity.AttackDamageSource` with its
`Attacker`, or any other source. -/
inductive DamageSource where
  | attack (attacker : Entity)
  | other (name : String)
deriving DecidableEq

/-- The `*player.Context` of a notification: the player it is about and the cancel flag. -/
structure Context where
  val : Player
  cancelled : Bool
deriving DecidableEq

/-- Fresh context `event.C(p)` with which the host delivers a notification. -/
def event.C (p : Player) : Context := ⟨p, false⟩

/-- Method `ctx.Cancel()`. -/
def Context.Cancel (ctx : Context) : Context := { ctx with cancelled := true }

/-! ## The chunk-visibility cursor (`world.Loader`) -/

/-- One call made on the cursor. -/
inductive LoaderCall where
  | move (tx : Tx) (pos : Vec3)
  | load (tx : Tx) (n : Int)
  | changeWorld (tx : Tx) (w : World)
  | close (tx : Tx)
deriving DecidableEq

/-- Modelled from the spec: the chunk-visibility cursor `world.Loader` of the host
runtime, which is not part of this package.  It is bound to one world, tracks a
centre position and a radius, and exposes move, load, change-world and close;
`calls` records every operation performed on it, in order. -/
structure Loader where
  r : Int
  w : Option World
  pos : Vec3
  calls : List LoaderCall
deriving DecidableEq

/-- Modelled from the spec: `world.NewLoader(radius, world, viewer)` creates a cursor bound to
`world`. -/
def NewLoader (r : Int) (w : World) : Loader := ⟨r, some w, Vec3.zero, []⟩

/-- Modelled from the spec: `l.World()`, the world the cursor is bound to. -/
def Loader.World (l : Loader) : Option World := l.w

/-- Modelled from the spec: `l.Move(tx, pos)` sets the centre of the cursor. -/
def Loader.Move (l : Loader) (tx : Tx) (pos : Vec3) : Loader :=
  { l with pos := pos, calls := l.calls ++ [.move tx pos] }

/-- Modelled from the spec: `l.Load(tx, n)` requests a load around the centre. -/
def Loader.Load (l : Loader) (tx : Tx) (n : Int) : Loader :=
  { l with calls := l.calls ++ [.load tx n] }

/-- Modelled from the spec: `l.ChangeWorld(tx, w)` unbinds the cursor from its world and binds it
to `w`. -/
def Loader.ChangeWorld (l : Loader) (tx : Tx) (w : npc.World) : Loader :=
  { l with w := some w, calls := l.calls ++ [.changeWorld tx w] }

/-- Modelled from the spec: `l.Close(tx)` releases the cursor. -/
def Loader.Close (l : Loader) (tx : Tx) : Loader :=
  { l with calls := l.calls ++ [.close tx] }

/-- The predicate "this call is a close". -/
def LoaderCall.isClose : LoaderCall → Bool
  | .close _ => true
  | _ => false

/-- Number of close operations performed on the cursor so far. -/
def Loader.closeCount (l : Loader) : Nat := l.calls.countP LoaderCall.isClose

/-! ## handler.go -/

/-- Type `HandlerFunc func(npc, target *player.Player)`.  The callback returns nothing; what it
does is its effect on the state `σ` of the program around it. -/
abbrev HandlerFunc (σ : Type) := Player → Player → σ → σ

/-- The `handler` struct.  The field `l` is a pointer in Go; the cursor it points to is carried
in the handler and every method returns the updated handler. -/
structure handler (σ : Type) where
  l : Loader
  f : HandlerFunc σ
  pos : Vec3
  vulnerable : Bool

/-- What `HandleHurt` leaves behind: the context, the values behind the pointers `dmg` and
`im`, and the state the callback acts on. -/
structure HurtResult (σ : Type) where
  ctx : Context
  dmg : Float64
  im : Duration
  user : σ

/-- Method `(*handler).HandleHurt`. -/
def handler.HandleHurt {σ : Type} (h : handler σ) (ctx : Context) (dmg : Float64) (_immune : Bool)
    (_im : Duration) (src : DamageSource) (u : σ) : HurtResult σ :=
  let du : Float64 × σ :=
    match src with
    | .attack a =>
      match a with
      | .player attacker => (0, h.f ctx.val attacker u)
      | .other _ => (dmg, u)
    | .other _ => (dmg, u)
  let im : Duration := 410 * time.Millisecond
  let ctx := if !h.vulnerable then ctx.Cancel else ctx
  ⟨ctx, du.1, im, du.2⟩

/-- Method `(*handler).syncPosition`. -/
def handler.syncPosition {σ : Type} (h : handler σ) (tx : Tx) (pos : Vec3) : handler σ :=
  let l := h.l.Move tx pos
  let l := l.Load tx 8
  { h with l := l }

/-- Method `(*handler).HandleMove`. -/
def handler.HandleMove {σ : Type} (h : handler σ) (ctx : Context) (pos : Vec3) (_rot : Rotation) :
    handler σ :=
  h.syncPosition ctx.val.tx pos

/-- Method `(*handler).HandleTeleport`. -/
def handler.HandleTeleport {σ : Type} (h : handler σ) (ctx : Context) (pos : Vec3) : handler σ :=
  h.syncPosition ctx.val.tx pos

/-- Method `(*handler).HandleQuit`. -/
def handler.HandleQuit {σ : Type} (h : handler σ) (p : Player) : handler σ :=
  { h with l := h.l.Close p.tx }

/-- A movement-class notification as the host delivers it. -/
inductive Notification where
  | move (ctx : Context) (pos : Vec3) (rot : Rotation)
  | teleport (ctx : Context) (pos : Vec3)
deriving DecidableEq

/-- Position carried by a movement-class notification. -/
def Notification.pos : Notification → Vec3
  | .move _ p _ => p
  | .teleport _ p => p

/-- Transaction of the player a movement-class notification is about (`ctx.Val().Tx()`). -/
def Notification.tx : Notification → Tx
  | .move c _ _ => c.val.tx
  | .teleport c _ => c.val.tx

/-- Dispatch of one movement-class notification to the handler. -/
def handler.deliver {σ : Type} (h : handler σ) : Notification → handler σ
  | .move ctx pos rot => h.HandleMove ctx pos rot
  | .teleport ctx pos => h.HandleTeleport ctx pos

/-- Dispatch of a sequence of movement-class notifications, in order. -/
def handler.deliverAll {σ : Type} (h : handler σ) (ns : List Notification) : handler σ :=
  ns.foldl handler.deliver h

/-- Dispatch of a sequence of quit notifications, in order. -/
def handler.quitAll {σ : Type} (h : handler σ) (ps : List Player) : handler σ :=
  ps.foldl handler.HandleQuit h

/-! ## skin.go: rectangles, textures, models -/

/-- Go `image.Point`. -/
structure Point where
  X : Int
  Y : Int
deriving DecidableEq

/-- Go `image.Rectangle`: the two corners `Min` and `Max`. -/
structure Rectangle where
  Min : Point
  Max : Point
deriving DecidableEq

/-- Method `Rectangle.Dx`: the width `Max.X - Min.X`. -/
def Rectangle.Dx (r : Rectangle) : Int := wrap64 (r.Max.X - r.Min.X)

/-- Method `Rectangle.Dy`: the height `Max.Y - Min.Y`. -/
def Rectangle.Dy (r : Rectangle) : Int := wrap64 (r.Max.Y - r.Min.Y)

/-- Go `image.Rect(x0, y0, x1, y1)`: the rectangle with these corners, the coordinates swapped
where needed so that the result is well-formed. -/
def image.Rect (x0 y0 x1 y1 : Int) : Rectangle :=
  let xs : Int × Int := if x0 > x1 then (x1, x0) else (x0, x1)
  let ys : Int × Int := if y0 > y1 then (y1, y0) else (y0, y1)
  ⟨⟨xs.1, ys.1⟩, ⟨xs.2, ys.2⟩⟩

/-- Method `Point.String`, which `%v` prints. -/
def Point.String (p : Point) : String :=
  "(" ++ toString p.X ++ "," ++ toString p.Y ++ ")"

/-- Method `Rectangle.String`, which `%v` prints. -/
def Rectangle.String (r : Rectangle) : String :=
  r.Min.String ++ "-" ++ r.Max.String

/-- Type `skin.ModelConfig` of the host library (the field this package sets). -/
structure skin.ModelConfig where
  Default : String
deriving DecidableEq

/-- Type `skin.Skin` of the host library: its size, pixel buffer, model configuration and model
JSON (the fields this package touches; the others keep their zero values). -/
structure skin.Skin where
  w : Int
  h : Int
  Pix : List UInt8
  ModelConfig : skin.ModelConfig
  Model : List UInt8
deriving DecidableEq

/-- Largest size in bytes that the Go runtime allocates on 64-bit targets (`maxAlloc`, 2^48). -/
def maxAlloc : Int := 2 ^ 48

/-- Host library function `skin.New(width, height)`: a skin of that size whose pixel buffer is
`make([]uint8, width*height*4)`.  Go's `make` panics when that length is negative or above
`maxAlloc`; an allocation within the limit is taken to succeed (a process that runs out of
memory is ended by the runtime, which is outside the embedding). -/
def skin.New (width height : Int) : Outcome skin.Skin :=
  let n := wrap64 (width * height * 4)
  if n < 0 ∨ maxAlloc < n then .panic "runtime error: makeslice: len out of range"
  else .ok ⟨width, height, List.replicate n.toNat 0, ⟨""⟩, []⟩

/-- The `Model` struct. -/
structure Model where
  json : List UInt8
  conf : skin.ModelConfig
  rect : Rectangle
deriving DecidableEq

/-- The `Texture` struct. -/
structure Texture where
  pix : List UInt8
  rect : Rectangle
deriving DecidableEq

/-- Function `Skin`. -/
def Skin (tex : Texture) (mod : Model) : Outcome skin.Skin :=
  if tex.rect ≠ mod.rect then
    .error ("skin texture dimensions did not match those specified in model: "
      ++ mod.rect.String ++ " specified but got " ++ tex.rect.String)
  else
    (skin.New tex.rect.Dx tex.rect.Dy).bind fun s =>
      .ok { s with ModelConfig := mod.conf, Model := mod.json, Pix := tex.pix }

/-- Function `MustSkin`. -/
def MustSkin (tex : Texture) (mod : Model) : Outcome skin.Skin :=
  match Skin tex mod with
  | .error e => .panic e
  | r => r

/-- Result of `color.Color.RGBA()`: four `uint32` channels. -/
structure RGBA where
  r : Nat
  g : Nat
  b : Nat
  a : Nat
deriving DecidableEq

/-- A decoded `image.Image`: its bounds and its colour at every point. -/
structure Image where
  Bounds : Rectangle
  At : Int → Int → RGBA

/-- What `image.Decode(r)` returned: an image, or an error, each with the format name. -/
inductive Decoded where
  | image (img : Image) (format : String)
  | failed (err : String) (format : String)

/-- Go conversion `byte(v>>8)` of a `uint32` channel. -/
def channelByte (v : Nat) : UInt8 := UInt8.ofNat ((v / 256) % 256)

/-- Function `ReadTexture`, on what `image.Decode` returned for the reader. -/
def ReadTexture (d : Decoded) : Outcome Texture :=
  match d with
  | .failed err s => .error ("failed decoding texture: " ++ err ++ ": " ++ s)
  | .image img _ =>
    let w := img.Bounds.Dx
    let h := img.Bounds.Dy
    if !(w == 64 && h == 32) && !(w == 64 && h == 64) && !(w == 128 && h == 128) then
      .error ("invalid skin texture dimensions: " ++ toString w ++ "x" ++ toString h)
    else
      let data : List UInt8 :=
        (List.range h.toNat).flatMap fun y =>
          (List.range w.toNat).flatMap fun x =>
            let c := img.At x y
            [channelByte c.r, channelByte c.g, channelByte c.b, channelByte c.a]
      .ok ⟨data, img.Bounds⟩

/-- A Go `interface{}` value as `encoding/json` produces it. -/
inductive Value where
  | null
  | bool (b : Bool)
  | number (f : Float64)
  | string (s : String)
  | array (xs : List Value)
  | object (kvs : List (String × Value))

/-- Go map index `m[k]` on a `map[string]interface{}`: the nil interface when the key is absent. -/
def mapIndex (m : List (String × Value)) (k : String) : Value :=
  (m.lookup k).getD .null

/-- Type assertion `v.([]interface{})`. -/
def Value.assertSlice : Value → Outcome (List Value)
  | .array xs => .ok xs
  | _ => .panic "interface conversion: interface is not []interface"

/-- Type assertion `v.(map[string]interface{})`. -/
def Value.assertMap : Value → Outcome (List (String × Value))
  | .object kvs => .ok kvs
  | _ => .panic "interface conversion: interface is not map[string]interface"

/-- Type assertion `v.(float64)`. -/
def Value.assertFloat64 : Value → Outcome Float64
  | .number f => .ok f
  | _ => .panic "interface conversion: interface is not float64"

/-- Type assertion `v.(string)`. -/
def Value.assertString : Value → Outcome String
  | .string s => .ok s
  | _ => .panic "interface conversion: interface is not string"

/-- Slice index `xs[0]`. -/
def sliceFirst : List Value → Outcome Value
  | x :: _ => .ok x
  | [] => .panic "runtime error: index out of range [0] with length 0"

/-- What `ReadModel` gets from the reader and the JSON decoder: `io.ReadAll` failed; or it
returned `data` and `json.Unmarshal` rejected it; or `json.Unmarshal` filled the map `m`
(the empty map for the document `null`, which leaves the map nil). -/
inductive ModelSource where
  | unreadable (err : String)
  | undecodable (data : List UInt8) (err : String)
  | document (data : List UInt8) (m : List (String × Value))

/-- Function `ReadModel`. -/
def ReadModel (r : ModelSource) : Outcome Model :=
  match r with
  | .unreadable err => .error ("failed reading model: " ++ err)
  | .undecodable _ err => .error ("failed decoding model: " ++ err)
  | .document model m =>
    (mapIndex m "minecraft:geometry").assertSlice.bind fun geometry =>
    (sliceFirst geometry).bind fun first =>
    first.assertMap.bind fun g =>
    (mapIndex g "description").assertMap.bind fun data =>
    (mapIndex data "texture_width").assertFloat64.bind fun wf =>
    (mapIndex data "texture_height").assertFloat64.bind fun hf =>
    let w := wf.toInt
    let h := hf.toInt
    (mapIndex data "identifier").assertString.bind fun ident =>
    .ok ⟨model, ⟨ident⟩, image.Rect 0 0 w h⟩

/-! ## npc.go -/

/-- Host type `item.Stack`, identified by item and count. -/
structure ItemStack where
  item : Nat
  count : Nat
deriving DecidableEq

/-- Modelled from the spec: the `Settings` struct, declared in a file of the package that is
not among the sources; its fields are those `Create` reads (position, yaw and pitch, scale,
name, skin, held items, armour set, immobility flag, vulnerability flag). -/
structure Settings where
  Name : String
  Skin : skin.Skin
  Scale : Float64
  Yaw : Float64
  Pitch : Float64
  Position : Vec3
  MainHand : ItemStack
  OffHand : ItemStack
  Helmet : ItemStack
  Chestplate : ItemStack
  Leggings : ItemStack
  Boots : ItemStack
  Immobile : Bool
  Vulnerable : Bool
deriving DecidableEq

/-- Host type `player.Config`, the fields `Create` fills in. -/
structure player.Config where
  Rotation : Rotation
  Skin : skin.Skin
  Name : String
  Position : Vec3
deriving DecidableEq

/-- One call on the host runtime, made by `Create` itself or by a closure it hands to the
world. -/
inductive Op where
  | newEntity (pos : Vec3) (conf : player.Config)
  | exec (w : World)
  | newLoader (r : Int) (w : World)
  | execWorld (handle : Nat)
  | addEntity (handle : Nat)
  | move (delta : Vec3) (yaw : Float64) (pitch : Float64)
  | setScale (s : Float64)
  | setHeldItems (main : ItemStack) (off : ItemStack)
  | armourSet (helmet : ItemStack) (chestplate : ItemStack) (leggings : ItemStack)
      (boots : ItemStack)
  | setImmobile
  | handle
  | chat (msg : String)
  | cursor (c : LoaderCall)
  | goSyncWorld
  | entity
deriving DecidableEq

/-- A closure handed to the world with `w.Exec` or `npc.ExecWorld`: the calls it makes, in
order, once the world runs it, and the panic that ends it, if any. -/
structure Transaction where
  ops : List Op
  panics : Option String
deriving DecidableEq

/-- What the host runtime contributes to one run of `Create`: the block-centre rounding
`cube.PosFromVec3(v).Vec3Centre()`; the handle of the entity that `EntitySpawnOpts.New`
returns; whether `npc.Entity(tx)` finds the entity when the last closure runs; and whether
the world has already run that closure when `Create` reads `p` to return it.  `Create` drops
what `w.Exec` returns and does not wait, so as a rule the world has not. -/
structure Host where
  centre : Vec3 → Vec3
  handle : Nat
  inWorld : Bool
  ranBeforeReturn : Bool

/-- A run of `Create`: the calls `Create` makes itself, in program order; the closures it hands
to the world, in the order handed over; the handler it builds, as built; and the pointer it
returns (`none` is nil) or the panic raised. -/
structure CreateRun (σ : Type) where
  ops : List Op
  txs : List Transaction
  h : Option (handler σ)
  result : Outcome (Option Player)

/-- Function `Create`.  The entity that the world hands to a closure is always a player, since
`playerConfig.Open` opens one.  The variable `p` is nil until the last closure has assigned
it; a panic in that closure ends the program. -/
def Create {σ : Type} (host : Host) (s : Settings) (w : Option World)
    (f : Option (HandlerFunc σ)) : CreateRun σ :=
  match w with
  | none => ⟨[], [], none, .panic "world passed to npc.create must not be nil"⟩
  | some w =>
    let f : HandlerFunc σ :=
      match f with
      | none => fun _ _ u => u
      | some f => f
    let s : Settings := if s.Scale.le 0 then { s with Scale := 1 } else s
    let conf : player.Config :=
      { Rotation := ⟨s.Yaw, s.Pitch⟩, Skin := s.Skin, Name := s.Name,
        Position := host.centre s.Position }
    let npc := host.handle
    let ops : List Op := [.newEntity s.Position conf]
    let tx1 : Transaction := ⟨[.addEntity npc], none⟩
    let ops := ops ++ [.exec w]
    let l := NewLoader 8 w
    let ops := ops ++ [.newLoader 8 w]
    let h : handler σ := { f := f, l := l, vulnerable := s.Vulnerable, pos := s.Position }
    let body : List Op := [.move Vec3.zero s.Yaw s.Pitch, .setScale s.Scale,
      .setHeldItems s.MainHand s.OffHand,
      .armourSet s.Helmet s.Chestplate s.Leggings s.Boots]
    let body := if s.Immobile then body ++ [.setImmobile] else body
    let body := body ++ [.handle, .chat "test"]
    let tx2 : Transaction := ⟨body, none⟩
    let ops := ops ++ [.execWorld npc]
    let tx : Tx := ⟨some w⟩
    let synced := h.syncPosition tx s.Position
    let tx3 : Transaction :=
      ⟨synced.l.calls.map Op.cursor ++ [.goSyncWorld, .entity],
        if host.inWorld then none else some "npc is not in a world"⟩
    let ops := ops ++ [.exec w]
    let result : Outcome (Option Player) :=
      if host.ranBeforeReturn then
        if host.inWorld then .ok (some ⟨npc, tx⟩) else .panic "npc is not in a world"
      else .ok none
    ⟨ops, [tx1, tx2, tx3], some h, result⟩

/-- The scales that the closures of a run of `Create` set on the entity, in order. -/
def CreateRun.scalesSet {σ : Type} (run : CreateRun σ) : List Float64 :=
  (run.txs.flatMap fun t => t.ops).filterMap fun op =>
    match op with
    | .setScale x => some x
    | _ => none

/-- State of the synchronisation task: the cursor, and how many times `ExecWorld` has been
called on the entity handle. -/
structure SyncState where
  l : Loader
  execWorldCalls : Nat
deriving DecidableEq

/-- The closure that `syncWorld` passes to `ExecWorld`, run in the transaction `tx`.  Its
`return` leaves the closure. -/
def syncWorldTick (l : Loader) (tx : Tx) : Loader :=
  let w := tx.world
  if w ≠ l.World then
    match w with
    | none => l
    | some w => l.ChangeWorld tx w
  else l

/-- One iteration of the loop of `syncWorld`: a call of `ExecWorld`, which runs the closure. -/
def syncWorldStep (st : SyncState) (tx : Tx) : SyncState :=
  ⟨syncWorldTick st.l tx, st.execWorldCalls + 1⟩

/-- Function `syncWorld` over the ticks the ticker delivers: `ticks` holds, for each tick in
order, the transaction in which the host runs the closure.  The body of the loop has no
`break` and no `return` of its own. -/
def syncWorld (l : Loader) (ticks : List Tx) : SyncState :=
  ticks.foldl syncWorldStep ⟨l, 0⟩

/-- A callback that records its arguments: the state is the list of calls made so far. -/
def recordCall : HandlerFunc (List (Player × Player)) :=
  fun npc target log => log ++ [(npc, target)]

/-! ## Concrete inputs used in the examples -/

/-- A handler with a fresh cursor on which nothing has been called yet. -/
def freshHandler : handler Unit := ⟨NewLoader 8 ⟨0⟩, fun _ _ u => u, Vec3.zero, false⟩

/-- The player that the quit notifications of the example are about. -/
def quittingPlayer : Player := ⟨1, ⟨some ⟨0⟩⟩⟩

/-- Settings of an NPC at the origin with the scale `x`, not immobile, not vulnerable. -/
def settingsWithScale (x : Float64) : Settings :=
  { Name := "guide", Skin := ⟨64, 64, [], ⟨"geometry.humanoid.custom"⟩, []⟩, Scale := x,
    Yaw := 0, Pitch := 0, Position := Vec3.zero, MainHand := ⟨0, 0⟩, OffHand := ⟨0, 0⟩,
    Helmet := ⟨0, 0⟩, Chestplate := ⟨0, 0⟩, Leggings := ⟨0, 0⟩, Boots := ⟨0, 0⟩,
    Immobile := false, Vulnerable := false }

/-- A host in which the spawned entity has handle 1 and is found in its world, and in which
the world has not yet run the last closure when `Create` returns. -/
def liveHost : Host := ⟨fun v => v, 1, true, false⟩

/-- A cursor bound to world 0 on which nothing has been called yet. -/
def freshLoader : Loader := NewLoader 8 ⟨0⟩

/-- A decoded 64x64 image whose bounds start at (1,1) instead of the origin, fully transparent. -/
def offsetImage : Image := ⟨⟨⟨1, 1⟩, ⟨65, 65⟩⟩, fun _ _ => ⟨0, 0, 0, 0⟩⟩

/-- A 64x64 texture whose rectangle is that of `offsetImage`. -/
def offsetTexture : Texture := ⟨List.replicate (64 * 64 * 4) 0, ⟨⟨1, 1⟩, ⟨65, 65⟩⟩⟩

/-- A model that declares a 64x64 texture. -/
def model64 : Model := ⟨[], ⟨"geometry.humanoid.custom"⟩, image.Rect 0 0 64 64⟩

/-- The description object of a model that lacks nothing. -/
def fullDescription : List (String × Value) :=
  [("identifier", .string "geometry.humanoid.custom"), ("texture_width", .number 64),
   ("texture_height", .number 64)]

/-- The decoded document of a proper model with the given description. -/
def modelDocument (description : Value) : List (String × Value) :=
  [("format_version", .string "1.12.0"),
   ("minecraft:geometry", .array [.object [("description", description)]])]

/-! ## Properties of the event handler -/

/-- What `HandleHurt` does to the context, whatever the source: it cancels it exactly when the
handler is not vulnerable and leaves it alone otherwise. -/
theorem HandleHurt_ctx {σ : Type} (h : handler σ) (ctx : Context) (dmg : Float64)
    (immune : Bool) (im : Duration) (src : DamageSource) (u : σ) :
    (h.HandleHurt ctx dmg immune im src u).ctx = if h.vulnerable then ctx else ctx.Cancel := by
  cases hv : h.vulnerable <;> simp [handler.HandleHurt, hv]

/-- The immunity duration that `HandleHurt` sets, whatever the source. -/
theorem HandleHurt_im {σ : Type} (h : handler σ) (ctx : Context) (dmg : Float64)
    (immune : Bool) (im : Duration) (src : DamageSource) (u : σ) :
    (h.HandleHurt ctx dmg immune im src u).im = 410000000 := by
  simp [handler.HandleHurt, time.Millisecond]

/-- A freshly delivered hurt event ends up cancelled exactly when the handler is not
vulnerable. -/
theorem HandleHurt_cancelled_fresh {σ : Type} (h : handler σ) (npc : Player) (dmg : Float64)
    (immune : Bool) (im : Duration) (src : DamageSource) (u : σ) :
    ((h.HandleHurt (event.C npc) dmg immune im src u).ctx.cancelled = true ↔
      h.vulnerable = false) := by
  rw [HandleHurt_ctx]
  cases hv : h.vulnerable <;> simp [event.C, Context.Cancel]

/-- C1: a hurt notification whose source is an attack by a player leaves the delivered damage
at 0 whatever it was, runs the damage callback exactly once, on (the NPC of the notification,
the attacker), sets the immunity duration to 410 ms (410,000,000 ns), and ends up cancelled
if and only if the handler is not vulnerable. -/
theorem HandleHurt_player_attack {σ : Type} (h : handler σ) (npc attacker : Player)
    (dmg : Float64) (immune : Bool) (im : Duration) (u : σ) :
    (h.HandleHurt (event.C npc) dmg immune im (.attack (.player attacker)) u).dmg = 0 ∧
    (h.HandleHurt (event.C npc) dmg immune im (.attack (.player attacker)) u).user
      = h.f npc attacker u ∧
    (∀ (l : Loader) (pos : Vec3) (v : Bool) (log : List (Player × Player)),
      ((handler.mk l recordCall pos v).HandleHurt (event.C npc) dmg immune im
        (.attack (.player attacker)) log).user = log ++ [(npc, attacker)]) ∧
    (h.HandleHurt (event.C npc) dmg immune im (.attack (.player attacker)) u).im
      = 410000000 ∧
    ((h.HandleHurt (event.C npc) dmg immune im (.attack (.player attacker)) u).ctx.cancelled
      = true ↔ h.vulnerable = false) := by
  refine ⟨rfl, rfl, fun _ _ _ _ => rfl, HandleHurt_im _ _ _ _ _ _ _, ?_⟩
  exact HandleHurt_cancelled_fresh _ _ _ _ _ _ _

/-- C2: a hurt notification whose source is not an attack by a player (not an attack source,
or an attack whose attacker is not a player) never runs the damage callback, leaves the
delivered damage unchanged, still sets the immunity duration to 410 ms, and ends up
cancelled if and only if the handler is not vulnerable. -/
theorem HandleHurt_other_source {σ : Type} (h : handler σ) (npc : Player) (dmg : Float64)
    (immune : Bool) (im : Duration) (src : DamageSource) (u : σ)
    (hsrc : ∀ p : Player, src ≠ .attack (.player p)) :
    (h.HandleHurt (event.C npc) dmg immune im src u).user = u ∧
    (h.HandleHurt (event.C npc) dmg immune im src u).dmg = dmg ∧
    (h.HandleHurt (event.C npc) dmg immune im src u).im = 410000000 ∧
    ((h.HandleHurt (event.C npc) dmg immune im src u).ctx.cancelled = true ↔
      h.vulnerable = false) := by
  refine ⟨?_, ?_, HandleHurt_im _ _ _ _ _ _ _, HandleHurt_cancelled_fresh _ _ _ _ _ _ _⟩
  · cases src with
    | other name => rfl
    | attack a =>
      cases a with
      | other id => rfl
      | player p => exact absurd rfl (hsrc p)
  · cases src with
    | other name => rfl
    | attack a =>
      cases a with
      | other id => rfl
      | player p => exact absurd rfl (hsrc p)

/-- An attack by a zombie-like entity on a handler that records its calls: nothing is recorded
and the damage 7 stays. -/
theorem HandleHurt_other_source_witness :
    ((handler.mk (NewLoader 8 ⟨0⟩) recordCall Vec3.zero false).HandleHurt
        (event.C ⟨1, ⟨some ⟨0⟩⟩⟩) 7 false 0 (.attack (.other 3)) []).user = [] ∧
    ((handler.mk (NewLoader 8 ⟨0⟩) recordCall Vec3.zero false).HandleHurt
        (event.C ⟨1, ⟨some ⟨0⟩⟩⟩) 7 false 0 (.attack (.other 3)) []).dmg = 7 :=
  ⟨(HandleHurt_other_source (handler.mk (NewLoader 8 ⟨0⟩) recordCall Vec3.zero false)
      ⟨1, ⟨some ⟨0⟩⟩⟩ 7 false 0 (.attack (.other 3)) [] (fun p => by simp)).1,
   (HandleHurt_other_source (handler.mk (NewLoader 8 ⟨0⟩) recordCall Vec3.zero false)
      ⟨1, ⟨some ⟨0⟩⟩⟩ 7 false 0 (.attack (.other 3)) [] (fun p => by simp)).2.1⟩

/-- Effect of one movement-class notification on the cursor. -/
theorem deliver_cursor {σ : Type} (h : handler σ) (n : Notification) :
    (h.deliver n).l.pos = n.pos ∧
    (h.deliver n).l.calls = h.l.calls ++ [.move n.tx n.pos, .load n.tx 8] := by
  cases n <;>
    simp [handler.deliver, handler.HandleMove, handler.HandleTeleport, handler.syncPosition,
      Loader.Move, Loader.Load, Notification.pos, Notification.tx]

/-- C3: in any sequence of Move and Teleport notifications, once a notification has been
processed the centre of the cursor is the position that notification carries, and the
handler has just moved the cursor there and then requested a load of 8; `HandleMove` and
`HandleTeleport` with the same position act alike, whatever the rotation. -/
theorem deliverAll_cursor_follows {σ : Type} (h : handler σ) (ns : List Notification)
    (n : Notification) :
    (h.deliverAll (ns ++ [n])).l.pos = n.pos ∧
    (h.deliverAll (ns ++ [n])).l.calls
      = (h.deliverAll ns).l.calls ++ [.move n.tx n.pos, .load n.tx 8] ∧
    (∀ (ctx : Context) (pos : Vec3) (rot : Rotation),
      h.HandleMove ctx pos rot = h.HandleTeleport ctx pos) := by
  have hstep : h.deliverAll (ns ++ [n]) = (h.deliverAll ns).deliver n := by
    simp [handler.deliverAll, List.foldl_append]
  rw [hstep]
  exact ⟨(deliver_cursor _ n).1, (deliver_cursor _ n).2, fun _ _ _ => rfl⟩

/-- Effect of one quit notification on the cursor: exactly one more close. -/
theorem HandleQuit_closeCount {σ : Type} (h : handler σ) (p : Player) :
    (h.HandleQuit p).l.closeCount = h.l.closeCount + 1 := by
  simp [handler.HandleQuit, Loader.Close, Loader.closeCount, List.countP_append,
    LoaderCall.isClose]

/-- C6, as stated, fails: two Quit notifications delivered to one handler perform the close
operation of the cursor twice, not once. -/
theorem HandleQuit_twice_closes_twice :
    (freshHandler.quitAll [quittingPlayer, quittingPlayer]).l.closeCount = 2 ∧
    ¬ ((freshHandler.quitAll [quittingPlayer, quittingPlayer]).l.closeCount
        = freshHandler.l.closeCount + 1) := by
  decide

/-- C6, amended: every Quit notification handled by `HandleQuit` closes the cursor exactly once
(one `Close` call, in the transaction of the quitting player, and no other call), so a
sequence of Quit notifications performs as many close operations as it has notifications. -/
theorem quitAll_closeCount {σ : Type} (h : handler σ) (ps : List Player) (p : Player) :
    (h.HandleQuit p).l.calls = h.l.calls ++ [.close p.tx] ∧
    (h.HandleQuit p).l.closeCount = h.l.closeCount + 1 ∧
    (h.quitAll ps).l.closeCount = h.l.closeCount + ps.length := by
  refine ⟨rfl, HandleQuit_closeCount h p, ?_⟩
  induction ps generalizing h with
  | nil => simp [handler.quitAll]
  | cons q qs ih =>
    have := ih (h.HandleQuit q)
    simp only [handler.quitAll, List.foldl_cons, List.length_cons] at this ⊢
    rw [this, HandleQuit_closeCount]
    omega

/-! ## Properties of the synchronisation task -/

/-- Every tick that `syncWorld` receives is one `ExecWorld` call: the loop never stops early. -/
theorem syncWorld_execWorldCalls (l : Loader) (ticks : List Tx) :
    (syncWorld l ticks).execWorldCalls = ticks.length := by
  have key : ∀ (st : SyncState),
      (ticks.foldl syncWorldStep st).execWorldCalls = st.execWorldCalls + ticks.length := by
    induction ticks with
    | nil => intro st; simp
    | cons t ts ih =>
      intro st
      simp only [List.foldl_cons, List.length_cons]
      rw [ih]
      simp only [syncWorldStep]
      omega
  simpa [syncWorld] using key ⟨l, 0⟩

/-- C4, on the code: a tick that observes a nil world does not end `syncWorld`.  After such a
tick a second tick is processed (two `ExecWorld` calls for two ticks), a later tick in a world
still rebinds the cursor, and in general every tick that follows the nil observation makes
one more `ExecWorld` call. -/
theorem syncWorld_continues_after_nil_world :
    (syncWorld freshLoader [⟨none⟩, ⟨none⟩]).execWorldCalls = 2 ∧
    (syncWorld freshLoader [⟨none⟩, ⟨some ⟨1⟩⟩]).l.calls = [.changeWorld ⟨some ⟨1⟩⟩ ⟨1⟩] ∧
    (∀ (l : Loader) (before after : List Tx),
      (syncWorld l (before ++ [⟨none⟩] ++ after)).execWorldCalls
        = (syncWorld l (before ++ [⟨none⟩])).execWorldCalls + after.length) := by
  refine ⟨by decide, by decide, ?_⟩
  intro l before after
  simp only [syncWorld_execWorldCalls, List.length_append]

/-- One tick in a transaction of the world `w`: the cursor is bound to `w` afterwards. -/
theorem syncWorldTick_World (l : Loader) (w : World) :
    (syncWorldTick l ⟨some w⟩).World = some w := by
  by_cases h : l.World = some w
  · simp [syncWorldTick, h]
  · have h2 : ¬ (some w = l.w) := fun e => h e.symm
    simp [syncWorldTick, h2, Loader.ChangeWorld, Loader.World]

/-- C5: a tick of `syncWorld` in which the entity is in the world `w`: if the cursor is bound
to another world the tick is exactly one `ChangeWorld` call with `w`, in the transaction of
the tick, and the cursor is bound to `w` afterwards; if the cursor is already bound to `w`
the tick does nothing to the cursor.  So after every such tick, in any run, the world of the
cursor is the world of the entity. -/
theorem syncWorldTick_follows_world (l : Loader) (w : World) (ticks : List Tx) :
    (l.World ≠ some w →
      syncWorldTick l ⟨some w⟩ = l.ChangeWorld ⟨some w⟩ w ∧
      (syncWorldTick l ⟨some w⟩).calls = l.calls ++ [.changeWorld ⟨some w⟩ w] ∧
      (syncWorldTick l ⟨some w⟩).World = some w) ∧
    (l.World = some w → syncWorldTick l ⟨some w⟩ = l) ∧
    (syncWorldTick l ⟨some w⟩).World = some w ∧
    (syncWorld l (ticks ++ [⟨some w⟩])).l.World = some w := by
  refine ⟨?_, ?_, syncWorldTick_World l w, ?_⟩
  · intro h
    have h2 : ¬ (some w = l.World) := fun e => h e.symm
    have e : syncWorldTick l ⟨some w⟩ = l.ChangeWorld ⟨some w⟩ w := by
      simp [syncWorldTick, h2]
    exact ⟨e, by rw [e]; rfl, syncWorldTick_World l w⟩
  · intro h
    simp [syncWorldTick, h]
  · simp only [syncWorld, List.foldl_append, List.foldl_cons, List.foldl_nil, syncWorldStep]
    exact syncWorldTick_World _ w

/-- A cursor bound to world 0 while the entity is in world 1: one tick rebinds it with a single
`ChangeWorld` call. -/
theorem syncWorldTick_follows_world_witness :
    freshLoader.World ≠ some ⟨1⟩ ∧
    (syncWorldTick freshLoader ⟨some ⟨1⟩⟩).calls = freshLoader.calls ++
      [.changeWorld ⟨some ⟨1⟩⟩ ⟨1⟩] ∧
    (syncWorldTick freshLoader ⟨some ⟨1⟩⟩).World = some ⟨1⟩ :=
  ⟨by decide,
   ((syncWorldTick_follows_world freshLoader ⟨1⟩ []).1 (by decide)).2.1,
   ((syncWorldTick_follows_world freshLoader ⟨1⟩ []).1 (by decide)).2.2⟩

/-! ## Properties of `Create` -/

/-- A float that is greater than zero is not less than or equal to zero. -/
theorem Float64.le_zero_of_zero_lt (x : Float64) (h : Float64.lt 0 x = true) :
    Float64.le x 0 = false := by
  have h0 : (0 : Float64) = .fin 0 := by
    show Float64.fin ((0 : ℕ) : ℚ) = .fin 0
    simp
  rw [h0] at h ⊢
  cases x with
  | nan => rfl
  | posInf => rfl
  | negInf => simp [Float64.lt] at h
  | fin q =>
    simp only [Float64.lt, decide_eq_true_eq] at h
    simp only [Float64.le, decide_eq_false_iff_not, not_le]
    exact h

/-- The scales that the closures of `Create` set on the entity in a non-nil world: one
`SetScale` call, with 1.0 when the scale of the settings is not positive and with that scale
otherwise. -/
theorem Create_scalesSet {σ : Type} (host : Host) (s : Settings) (w : World)
    (f : Option (HandlerFunc σ)) :
    (Create host s (some w) f).scalesSet = [if s.Scale.le 0 then 1 else s.Scale] := by
  cases hle : s.Scale.le 0 <;> cases him : s.Immobile <;>
    simp [Create, CreateRun.scalesSet, hle, him, handler.syncPosition, Loader.Move,
      Loader.Load, NewLoader]

/-- What `Create` returns or raises: the nil-world panic; otherwise nil while the world has not
run the last closure, and after that the player, or the panic of that closure. -/
theorem Create_result {σ : Type} (host : Host) (s : Settings) (w : Option World)
    (f : Option (HandlerFunc σ)) :
    (Create host s w f).result =
      match w with
      | none => .panic "world passed to npc.create must not be nil"
      | some w =>
        if host.ranBeforeReturn then
          if host.inWorld then .ok (some ⟨host.handle, ⟨some w⟩⟩)
          else .panic "npc is not in a world"
        else .ok none := by
  cases w with
  | none => rfl
  | some w => rfl

/-- The panics of the closures that `Create` hands to the world: only the last one can panic,
when the entity is not found in the world. -/
theorem Create_txs_panics {σ : Type} (host : Host) (s : Settings) (w : World)
    (f : Option (HandlerFunc σ)) :
    (Create host s (some w) f).txs.map (fun t => t.panics)
      = [none, none, if host.inWorld then none else some "npc is not in a world"] := by
  simp [Create]

/-- C7: `Create` normalises the scale before it sets it on the entity: with a scale less than
or equal to 0 the one scale set on the spawned entity is 1.0, with a scale greater than 0 it
is the scale given; and neither the outcome of `Create` nor a panic of the closures it hands
to the world depends on the scale, so an invalid scale never makes it fail. -/
theorem Create_scale_normalised {σ : Type} (host : Host) (s : Settings) (w : World)
    (f : Option (HandlerFunc σ)) :
    (s.Scale.le 0 = true → (Create host s (some w) f).scalesSet = [1]) ∧
    (Float64.lt 0 s.Scale = true → (Create host s (some w) f).scalesSet = [s.Scale]) ∧
    (∀ (x : Float64) (w0 : Option World),
      (Create host { s with Scale := x } w0 f).result = (Create host s w0 f).result) ∧
    (∀ (x : Float64),
      (Create host { s with Scale := x } (some w) f).txs.map (fun t => t.panics)
        = (Create host s (some w) f).txs.map (fun t => t.panics)) := by
  refine ⟨?_, ?_, ?_, ?_⟩
  · intro h
    rw [Create_scalesSet, h]
    rfl
  · intro h
    rw [Create_scalesSet, Float64.le_zero_of_zero_lt _ h]
    rfl
  · intro x w0
    rw [Create_result, Create_result]
  · intro x
    rw [Create_txs_panics, Create_txs_panics]

/-- Scale -2 is replaced by 1.0 and scale 3 is kept. -/
theorem Create_scale_normalised_witness :
    (Create liveHost (settingsWithScale (.fin (-2))) (some ⟨0⟩)
      (none : Option (HandlerFunc Unit))).scalesSet = [1] ∧
    (Create liveHost (settingsWithScale 3) (some ⟨0⟩)
      (none : Option (HandlerFunc Unit))).scalesSet = [3] :=
  ⟨(Create_scale_normalised liveHost (settingsWithScale (.fin (-2))) ⟨0⟩ none).1 (by decide),
   (Create_scale_normalised liveHost (settingsWithScale 3) ⟨0⟩ none).2.1 (by decide)⟩

/-- C8: with a nil world `Create` panics, for every settings and callback, before it has made
any call on the host or handed any closure to a world (no entity spawned, no cursor created,
no synchronisation task started, no handler built).  With a non-nil world and a nil callback
it behaves as with any callback (same host calls, same closures, same outcome), and the
callback of the handler it builds does nothing. -/
theorem Create_nil_world_and_nil_callback {σ : Type} (host : Host) (s : Settings) (w : World)
    (f : Option (HandlerFunc σ)) (g : HandlerFunc σ) :
    (Create host s none f).result = .panic "world passed to npc.create must not be nil" ∧
    (Create host s none f).ops = [] ∧
    (Create host s none f).txs = [] ∧
    (Create host s none f).h = none ∧
    (Create host s (some w) (none : Option (HandlerFunc σ))).ops
      = (Create host s (some w) (some g)).ops ∧
    (Create host s (some w) (none : Option (HandlerFunc σ))).txs
      = (Create host s (some w) (some g)).txs ∧
    (Create host s (some w) (none : Option (HandlerFunc σ))).result
      = (Create host s (some w) (some g)).result ∧
    ((Create host s (some w) (none : Option (HandlerFunc σ))).h.map fun h => h.f)
      = some (fun _ _ u => u) := by
  exact ⟨rfl, rfl, rfl, rfl, rfl, rfl, rfl, rfl⟩

/-! ## Properties of the skin utilities -/

/-- Function `Skin` returns an error exactly when the two rectangles differ. -/
theorem Skin_isError (tex : Texture) (mod : Model) :
    (Skin tex mod).isError = true ↔ tex.rect ≠ mod.rect := by
  unfold Skin
  by_cases h : tex.rect = mod.rect
  · simp only [h, ne_eq, not_true_eq_false, if_false]
    simp only [skin.New]
    split_ifs <;> simp [Outcome.bind, Outcome.isError]
  · simp [h, Outcome.isError]

/-- C9, on the code: a 64x64 texture whose bounds start at (1,1), which `ReadTexture` accepts,
is rejected by `Skin` with a model that declares 64x64.  Width and height are the same on
both sides, yet `Skin` returns the error that the dimensions did not match: it compares the
rectangles, not the dimensions. -/
theorem Skin_rejects_equal_dimensions :
    ((ReadTexture (.image offsetImage "gif")).bind fun t => .ok t.rect)
      = .ok offsetTexture.rect ∧
    offsetTexture.rect.Dx = 64 ∧ model64.rect.Dx = 64 ∧
    offsetTexture.rect.Dy = 64 ∧ model64.rect.Dy = 64 ∧
    Skin offsetTexture model64 = .error
      ("skin texture dimensions did not match those specified in model: "
        ++ "(0,0)-(64,64)" ++ " specified but got " ++ "(1,1)-(65,65)") ∧
    ¬ ((Skin offsetTexture model64).isError = true ↔
        (offsetTexture.rect.Dx ≠ model64.rect.Dx ∨ offsetTexture.rect.Dy ≠ model64.rect.Dy)) := by
  refine ⟨by decide, by decide, by decide, by decide, by decide, by rfl, by decide⟩

/-- An unreadable source and a source that is not JSON make `ReadModel` return an error. -/
theorem ReadModel_error_unreadable (data : List UInt8) (err : String) :
    (ReadModel (.unreadable err)).isError = true ∧
    (ReadModel (.undecodable data err)).isError = true :=
  ⟨rfl, rfl⟩

/-- C10, on the code: `ReadModel` panics, instead of returning an error, on valid JSON that is
not a proper model: the empty object (bytes 123, 125), the document `null`, a geometry list
that is empty, a geometry entry without a description, a texture width that is a string,
and a description without an identifier. -/
theorem ReadModel_panics_on_improper_model :
    ReadModel (.document [123, 125] [])
      = .panic "interface conversion: interface is not []interface" ∧
    (ReadModel (.document [110, 117, 108, 108] [])).isPanic = true ∧
    (∀ data : List UInt8,
      ReadModel (.document data [("minecraft:geometry", .array [])])
        = .panic "runtime error: index out of range [0] with length 0") ∧
    (∀ data : List UInt8,
      (ReadModel (.document data [("minecraft:geometry", .array [.object []])])).isPanic
        = true) ∧
    (∀ data : List UInt8,
      (ReadModel (.document data (modelDocument (.object
        [("identifier", .string "geometry.humanoid.custom"),
         ("texture_width", .string "64"), ("texture_height", .number 64)])))).isPanic
        = true) ∧
    (∀ data : List UInt8,
      (ReadModel (.document data (modelDocument (.object
        [("texture_width", .number 64), ("texture_height", .number 64)])))).isPanic = true) ∧
    (∀ data : List UInt8,
      ReadModel (.document data (modelDocument (.object fullDescription)))
        = .ok ⟨data, ⟨"geometry.humanoid.custom"⟩, image.Rect 0 0 64 64⟩) := by
  refine ⟨by rfl, by rfl, fun _ => by rfl, fun _ => by rfl, fun _ => by rfl, fun _ => by rfl,
    fun _ => ?_⟩
  rfl

end npc
